import Mathlib

/-!
Shallow embedding of `sdks/python/apache_beam/runners/direct/direct_runner.py`
(the Beam DirectRunner control plane): the result-handle lifecycle state
machine, the transform-override (rewrite) rules, the engine-selection logic of
`SwitchingDirectRunner`, and the buffered PubSub write DoFn.  Python machine
behaviour (exceptions, truthiness of `if duration:` / `if sink.id_label:`) is
made explicit: fallible code returns `Except PyErr`, truthiness of optional
arguments is modelled by dedicated predicates.
-/

set_option linter.unusedVariables false

instance exceptDecEq {ε α : Type} [DecidableEq ε] [DecidableEq α] :
    DecidableEq (Except ε α) := fun a b =>
  match a, b with
  | .ok x, .ok y =>
      if h : x = y then isTrue (by rw [h]) else isFalse (fun hc => h (by injection hc))
  | .error x, .error y =>
      if h : x = y then isTrue (by rw [h]) else isFalse (fun hc => h (by injection hc))
  | .ok _, .error _ => isFalse (fun hc => Except.noConfusion hc)
  | .error _, .ok _ => isFalse (fun hc => Except.noConfusion hc)

/-- Python exceptions raised (or caught) in the module. -/
inductive PyErr where
  | notImplementedError (msg : String)
  | exception (msg : String)
  | attributeError
deriving DecidableEq

/-- Modelled from the spec: `PipelineState` lives in
`apache_beam/runners/runner.py`, which is not part of the provided source.
Per the spec, DONE, FAILED and CANCELLED are terminal; RUNNING is initial and
CANCELLING is transient.  Only the five states reachable in
`DirectPipelineResult` are modelled. -/
inductive PipelineState where
  | RUNNING
  | DONE
  | FAILED
  | CANCELLING
  | CANCELLED
deriving DecidableEq

/-- Modelled from the spec: `PipelineState.is_terminal` (external module);
the spec says "CANCELLED and DONE and FAILED are terminal". -/
def PipelineState.is_terminal : PipelineState → Bool
  | .DONE => true
  | .FAILED => true
  | .CANCELLED => true
  | _ => false

/-- The result handle: the only mutable field the lifecycle operations touch
is `_state` (`self._state` in the Python class). -/
structure DirectPipelineResult where
  _state : PipelineState
deriving DecidableEq

/-- `DirectPipelineResult.__init__` passes `PipelineState.RUNNING` to the
superclass constructor: RUNNING is the only initial state. -/
def DirectPipelineResult.init : DirectPipelineResult := ⟨.RUNNING⟩

/-- Python truthiness of the `duration` argument as used by `if duration:` —
`None` and `0` are falsy, every other number is truthy. -/
def durationTruthy : Option Int → Bool
  | none => false
  | some d => d != 0

/-- Everything observable about one `wait_until_finish` call: the returned
state or raised exception, the handle afterwards, and whether `await_completion`
on the executor was invoked. -/
structure WaitOutcome where
  result : Except PyErr PipelineState
  final : DirectPipelineResult
  awaitCompletionInvoked : Bool
deriving DecidableEq

/-- `DirectPipelineResult.wait_until_finish(duration)`.  The executor is
external; its `await_completion()` either returns or raises, which we pass in
as `executor : Except PyErr Unit`.  Faithful to the source: the duration check
happens only inside the `not is_terminal` branch; on executor success the
state is set to DONE and returned; on executor failure the state is set to
FAILED and the exception is re-raised; on a terminal state the current state
is returned untouched. -/
def DirectPipelineResult.wait_until_finish (r : DirectPipelineResult)
    (duration : Option Int) (executor : Except PyErr Unit) : WaitOutcome :=
  if !r._state.is_terminal then
    if durationTruthy duration then
      ⟨.error (.notImplementedError
          "DirectRunner does not support duration argument."), r, false⟩
    else
      match executor with
      | .ok _ => ⟨.ok .DONE, ⟨.DONE⟩, true⟩
      | .error e => ⟨.error e, ⟨.FAILED⟩, true⟩
  else ⟨.ok r._state, r, false⟩

/-- `DirectPipelineResult.cancel()`: sets CANCELLING, shuts the executor down,
sets CANCELLED — unconditionally, with no check of the current state. -/
def DirectPipelineResult.cancel (r : DirectPipelineResult) : DirectPipelineResult :=
  ⟨.CANCELLED⟩

/-- The sequence of assignments to `self._state` a `wait_until_finish` call
performs (empty when it raises before touching the state, or when the state is
already terminal). -/
def DirectPipelineResult.waitAssigns (r : DirectPipelineResult)
    (duration : Option Int) (executor : Except PyErr Unit) : List PipelineState :=
  if !r._state.is_terminal then
    if durationTruthy duration then []
    else
      match executor with
      | .ok _ => [.DONE]
      | .error _ => [.FAILED]
  else []

/-- The sequence of assignments to `self._state` a `cancel` call performs:
CANCELLING before `executor.shutdown()`, CANCELLED after. -/
def DirectPipelineResult.cancelAssigns : List PipelineState :=
  [.CANCELLING, .CANCELLED]

/-- Turns a start state and a list of assigned states into the list of
state-machine edges traversed (self-loops included as written). -/
def stateEdges : PipelineState → List PipelineState → List (PipelineState × PipelineState)
  | _, [] => []
  | s, a :: rest => (s, a) :: stateEdges a rest

/-- The two lifecycle operations a caller can invoke on the handle. -/
inductive ResultOp where
  | wait (duration : Option Int) (executor : Except PyErr Unit)
  | cancel
deriving DecidableEq

/-- Assignments to `_state` performed by one operation. -/
def DirectPipelineResult.opAssigns (r : DirectPipelineResult) :
    ResultOp → List PipelineState
  | .wait d ex => r.waitAssigns d ex
  | .cancel => DirectPipelineResult.cancelAssigns

/-- State of the handle after one operation completes (for `wait`, the raise
paths leave the state as recorded in `WaitOutcome.final`). -/
def DirectPipelineResult.execOp (r : DirectPipelineResult) :
    ResultOp → DirectPipelineResult
  | .wait d ex => (r.wait_until_finish d ex).final
  | .cancel => r.cancel

/-- All state-machine edges one operation traverses from the current state. -/
def DirectPipelineResult.opEdges (r : DirectPipelineResult) (op : ResultOp) :
    List (PipelineState × PipelineState) :=
  stateEdges r._state (r.opAssigns op)

/-! ## The transform graph and the rewrite (override) rules -/

/-- Input windowing of a value; `is_default` is true exactly for the default
windowing (single global window). -/
structure Windowing where
  is_default : Bool
deriving DecidableEq

/-- A combine function.  Modelled from the spec: whether its shape is liftable
is decided inside `LiftedCombinePerKey` (in
`apache_beam/runners/direct/helper_transforms.py`, outside the provided
source); the spec leaves the exact coverage open, so we carry it as a flag. -/
structure CombineFn where
  id : Nat
  liftable : Bool
deriving DecidableEq

/-- One raw side-input argument of a ParDo (`args` and `kwargs.values()`
chained); `ArgumentPlaceholder` marks a deferred (not yet materialized)
side input. -/
inductive Arg where
  | ArgumentPlaceholder
  | value (n : Nat)
deriving DecidableEq

/-- The source wrapped by a `beam.io.Read`. -/
inductive SourceK where
  | nativeSource
  | otherSource (n : Nat)
deriving DecidableEq

/-- The `_source` of a `ReadFromPubSub`. -/
structure PubSubSource where
  topic : String
deriving DecidableEq

/-- The `_sink` of a `WriteToPubSub` / `_WriteStringsToPubSub`. -/
structure PubSubSink where
  project : String
  topic_name : String
  id_label : Option String
  timestamp_attribute : Option String
  with_attributes : Bool
deriving DecidableEq

/-- Python truthiness of an optional string (`if sink.id_label:`): `None` and
the empty string are falsy. -/
def strTruthy : Option String → Bool
  | none => false
  | some s => s != ""

/-- The fields `_DirectWriteToPubSubFn.__init__` copies out of the sink. -/
structure DirectWriteFn where
  project : String
  short_topic_name : String
  id_label : Option String
  timestamp_attribute : Option String
  with_attributes : Bool
deriving DecidableEq

/-- `_DirectWriteToPubSubFn.__init__(sink)`: copies the sink fields, then
fails fast with `NotImplementedError` if the sink requests `id_label` or
`timestamp_attribute` propagation. -/
def DirectWriteToPubSubFn.init (sink : PubSubSink) : Except PyErr DirectWriteFn :=
  let fn : DirectWriteFn :=
    ⟨sink.project, sink.topic_name, sink.id_label, sink.timestamp_attribute,
      sink.with_attributes⟩
  if strTruthy sink.id_label then
    .error (.notImplementedError
      "DirectRunner: id_label is not supported for PubSub writes")
  else if strTruthy sink.timestamp_attribute then
    .error (.notImplementedError
      "DirectRunner: timestamp_attribute is not supported for PubSub writes")
  else .ok fn

/-- The DoFn carried by a ParDo, as far as the module inspects it. -/
inductive DoFnK where
  | CombineValuesDoFn
  | GroupAlsoByWindowDoFn (windowing : Windowing)
  | DirectWriteToPubSubDoFn (fn : DirectWriteFn)
  | otherDoFn (n : Nat)
deriving DecidableEq

/-- The transform classes that the predicates and replacements
distinguish.  Each constructor stands for one exact Python class, so
`__class__ ==` tests are constructor tests and `isinstance` tests are
predicates over the subclass groups spelled out below.  The last three
constructors are modelled from the spec: `SplittableParDo` steps and their
keyed-work-item decomposition live in
`apache_beam/runners/direct/sdf_direct_runner.py`, outside the provided
source. -/
inductive Transform where
  | TestStream
  | Read (source : SourceK)
  | NativeWrite
  | ParDo (dofn : DoFnK) (sideInputs : List Arg)
  | GroupAlsoByWindow (windowing : Windowing)
  | StreamingGroupAlsoByWindow (windowing : Windowing)
  | CombinePerKey (fn : CombineFn)
  | GroupByKeyOnly
  | StreamingGroupByKeyOnly
  | ReadFromPubSub (source : PubSubSource)
  | WriteToPubSub (sink : PubSubSink)
  | WriteStringsToPubSub (sink : PubSubSink)
  | DirectReadFromPubSub (source : PubSubSource)
  | LiftedCombinePerKey (fn : CombineFn)
  | SplittableParDo (n : Nat)
  | ProcessKeyedElements (n : Nat)
  | KeyedWorkItemsParDo (n : Nat)
  | other (n : Nat)
deriving DecidableEq

/-- `isinstance(t, beam.ParDo)`: `_GroupAlsoByWindow` and its subclass
`_StreamingGroupAlsoByWindow` are ParDo subclasses. -/
def Transform.isParDoInstance : Transform → Bool
  | .ParDo _ _ => true
  | .GroupAlsoByWindow _ => true
  | .StreamingGroupAlsoByWindow _ => true
  | _ => false

/-- `t.dofn` for ParDo instances (`_GroupAlsoByWindow(windowing)` carries a
`_GroupAlsoByWindowDoFn` over the same windowing). -/
def Transform.dofn : Transform → Option DoFnK
  | .ParDo d _ => some d
  | .GroupAlsoByWindow w => some (.GroupAlsoByWindowDoFn w)
  | .StreamingGroupAlsoByWindow w => some (.GroupAlsoByWindowDoFn w)
  | _ => none

/-- `t.raw_side_inputs` flattened (only plain ParDo carries them here). -/
def Transform.rawSideInputs : Transform → List Arg
  | .ParDo _ s => s
  | _ => []

/-- `t.__class__ == _StreamingGroupAlsoByWindow` (exact class test). -/
def Transform.classIsStreamingGABW : Transform → Bool
  | .StreamingGroupAlsoByWindow _ => true
  | _ => false

/-- `isinstance(d, _GroupAlsoByWindowDoFn)`. -/
def DoFnK.isGroupAlsoByWindowDoFn : DoFnK → Bool
  | .GroupAlsoByWindowDoFn _ => true
  | _ => false

/-- A graph node: the transform plus the windowing of its first input
(`applied_ptransform.inputs[0].windowing`).  Replacement keeps the inputs, so
it keeps `inputWindowing`. -/
structure AppliedPTransform where
  transform : Transform
  inputWindowing : Windowing
deriving DecidableEq

/-- Recognized pipeline options: `streaming` (StandardOptions) and
`direct_runner_use_stacked_bundle` (DirectOptions). -/
structure PipelineOptions where
  streaming : Bool
  direct_runner_use_stacked_bundle : Bool
deriving DecidableEq

/-- A PTransformOverride: a match predicate over applied transforms and a
replacement computation over the matched transform (fallible, since several
replacement bodies raise). -/
structure PTransformOverride where
  matchesFn : AppliedPTransform → Bool
  get_replacement_transform : Transform → Except PyErr Transform

/-- Modelled from the spec: `LiftedCombinePerKey.__init__` (in
`helper_transforms.py`, outside the provided source) builds the
pre-aggregating variant and raises `NotImplementedError` when the combine
function shape is unsupported for lifting. -/
def LiftedCombinePerKey.init (fn : CombineFn) : Except PyErr Transform :=
  if fn.liftable then .ok (.LiftedCombinePerKey fn)
  else .error (.notImplementedError "combine function shape unsupported for lifting")

/-- `CombinePerKeyOverride`: matches a `CombinePerKey` whose first input has
default windowing; the replacement tries `LiftedCombinePerKey` and returns the
transform unchanged on `NotImplementedError`. -/
def CombinePerKeyOverride : PTransformOverride where
  matchesFn a :=
    match a.transform with
    | .CombinePerKey _ => a.inputWindowing.is_default
    | _ => false
  get_replacement_transform t :=
    match t with
    | .CombinePerKey fn =>
        match LiftedCombinePerKey.init fn with
        | .ok l => .ok l
        | .error (.notImplementedError _) => .ok t
        | .error e => .error e
    | _ => .error .attributeError

/-- `StreamingGroupByKeyOverride`: matches the exact class `_GroupByKeyOnly`
(not the `_StreamingGroupByKeyOnly` subclass it produces). -/
def StreamingGroupByKeyOverride : PTransformOverride where
  matchesFn a :=
    match a.transform with
    | .GroupByKeyOnly => true
    | _ => false
  get_replacement_transform _ := .ok .StreamingGroupByKeyOnly

/-- `StreamingGroupAlsoByWindowOverride`: matches ParDo instances whose dofn
is a `_GroupAlsoByWindowDoFn`, excluding the exact class
`_StreamingGroupAlsoByWindow` it produces. -/
def StreamingGroupAlsoByWindowOverride : PTransformOverride where
  matchesFn a :=
    a.transform.isParDoInstance &&
      (match a.transform.dofn with
       | some d => d.isGroupAlsoByWindowDoFn
       | none => false) &&
      !a.transform.classIsStreamingGABW
  get_replacement_transform t :=
    match t.dofn with
    | some (.GroupAlsoByWindowDoFn w) => .ok (.StreamingGroupAlsoByWindow w)
    | _ => .error .attributeError

/-- `ReadFromPubSubOverride`: matches `ReadFromPubSub`; the replacement raises
unless streaming, else wraps the source in `_DirectReadFromPubSub`. -/
def ReadFromPubSubOverride (pipeline_options : PipelineOptions) : PTransformOverride where
  matchesFn a :=
    match a.transform with
    | .ReadFromPubSub _ => true
    | _ => false
  get_replacement_transform t :=
    if !pipeline_options.streaming then
      .error (.exception
        "PubSub I/O is only available in streaming mode (use the --streaming flag).")
    else
      match t with
      | .ReadFromPubSub src => .ok (.DirectReadFromPubSub src)
      | _ => .error .attributeError

/-- `WriteToPubSubOverride`: matches `WriteToPubSub` or
`_WriteStringsToPubSub`; the replacement raises unless streaming, else builds
`beam.ParDo(_DirectWriteToPubSubFn(t._sink))` (whose constructor may itself
raise on unsupported sink options). -/
def WriteToPubSubOverride (pipeline_options : PipelineOptions) : PTransformOverride where
  matchesFn a :=
    match a.transform with
    | .WriteToPubSub _ => true
    | .WriteStringsToPubSub _ => true
    | _ => false
  get_replacement_transform t :=
    if !pipeline_options.streaming then
      .error (.exception
        "PubSub I/O is only available in streaming mode (use the --streaming flag).")
    else
      match t with
      | .WriteToPubSub sink =>
          match DirectWriteToPubSubFn.init sink with
          | .ok fn => .ok (.ParDo (.DirectWriteToPubSubDoFn fn) [])
          | .error e => .error e
      | .WriteStringsToPubSub sink =>
          match DirectWriteToPubSubFn.init sink with
          | .ok fn => .ok (.ParDo (.DirectWriteToPubSubDoFn fn) [])
          | .error e => .error e
      | _ => .error .attributeError

/-- Modelled from the spec: `SplittableParDoOverride` (in
`sdf_direct_runner.py`, outside the provided source) decomposes a splittable
per-element step towards keyed work items; its output is not a splittable
per-element step. -/
def SplittableParDoOverride : PTransformOverride where
  matchesFn a :=
    match a.transform with
    | .SplittableParDo _ => true
    | _ => false
  get_replacement_transform t :=
    match t with
    | .SplittableParDo n => .ok (.ProcessKeyedElements n)
    | _ => .error .attributeError

/-- Modelled from the spec: `ProcessKeyedElementsViaKeyedWorkItemsOverride`
(in `sdf_direct_runner.py`, outside the provided source) replaces the
keyed-element producer with the keyed-work-item processor. -/
def ProcessKeyedElementsViaKeyedWorkItemsOverride : PTransformOverride where
  matchesFn a :=
    match a.transform with
    | .ProcessKeyedElements _ => true
    | _ => false
  get_replacement_transform t :=
    match t with
    | .ProcessKeyedElements n => .ok (.KeyedWorkItemsParDo n)
    | _ => .error .attributeError

/-- `_get_pubsub_transform_overrides(pipeline_options)`. -/
def get_pubsub_transform_overrides (pipeline_options : PipelineOptions) :
    List PTransformOverride :=
  [ReadFromPubSubOverride pipeline_options, WriteToPubSubOverride pipeline_options]

/-- `_get_transform_overrides(pipeline_options)`: the SDF overrides and
`CombinePerKeyOverride` always; the two streaming overrides when
`streaming`; the PubSub overrides when the `apache_beam.io.gcp.pubsub` import
succeeds (`pubsubAvailable` models that environment fact). -/
def get_transform_overrides (pipeline_options : PipelineOptions)
    (pubsubAvailable : Bool) : List PTransformOverride :=
  ([SplittableParDoOverride, ProcessKeyedElementsViaKeyedWorkItemsOverride,
      CombinePerKeyOverride] ++
    (if pipeline_options.streaming then
      [StreamingGroupByKeyOverride, StreamingGroupAlsoByWindowOverride]
     else []) ++
    (if pubsubAvailable then get_pubsub_transform_overrides pipeline_options
     else []))

/-- Applying one override to one node: if it matches, the transform of the node is
replaced by the (possibly failing) replacement; inputs are kept. -/
def applyOverride (o : PTransformOverride) (a : AppliedPTransform) :
    Except PyErr AppliedPTransform :=
  if o.matchesFn a then
    match o.get_replacement_transform a.transform with
    | .ok t => .ok ⟨t, a.inputWindowing⟩
    | .error e => .error e
  else .ok a

/-- Applying the ordered override list to one node. -/
def applyOverrides : List PTransformOverride → AppliedPTransform →
    Except PyErr AppliedPTransform
  | [], a => .ok a
  | o :: os, a =>
      match applyOverride o a with
      | .ok b => applyOverrides os b
      | .error e => .error e

/-- `pipeline.replace_all(overrides)` over the node list: every override is
applied to every node, and an exception raised by any replacement aborts the
rewrite (the rules here are per-node, so override-major and node-major
iteration agree). -/
def replace_all : List AppliedPTransform → List PTransformOverride →
    Except PyErr (List AppliedPTransform)
  | [], _ => .ok []
  | a :: rest, os =>
      match applyOverrides os a with
      | .error e => .error e
      | .ok b =>
          match replace_all rest os with
          | .error e => .error e
          | .ok bs => .ok (b :: bs)

/-! ## The buffered PubSub write DoFn (`_DirectWriteToPubSubFn`) -/

/-- A buffered element (the payload is opaque to the buffering logic). -/
abbrev Elem := Nat

/-- `BUFFER_SIZE_ELEMENTS = 100`. -/
def BUFFER_SIZE_ELEMENTS : Nat := 100

/-- The per-bundle mutable state of `_DirectWriteToPubSubFn`: its `_buffer`.
(`FLUSH_TIMEOUT_SECS = BUFFER_SIZE_ELEMENTS * 0.5` only budgets the external
acknowledgment waits inside `_flush` and is not part of the buffering
logic.) -/
structure WriteFnState where
  buffer : List Elem
deriving DecidableEq

/-- `start_bundle`: `self._buffer = []`. -/
def WriteFnState.start_bundle : WriteFnState := ⟨[]⟩

/-- `process(elem)`: append to the buffer; if the buffered count reaches
`BUFFER_SIZE_ELEMENTS`, `_flush()` (which submits everything and resets the
buffer to `[]`).  The returned flag records whether a flush happened. -/
def WriteFnState.process (s : WriteFnState) (e : Elem) : WriteFnState × Bool :=
  if BUFFER_SIZE_ELEMENTS ≤ (s.buffer ++ [e]).length then (⟨[]⟩, true)
  else (⟨s.buffer ++ [e]⟩, false)

/-- `finish_bundle`: `self._flush()` unconditionally. -/
def WriteFnState.finish_bundle (s : WriteFnState) : WriteFnState × Bool :=
  (⟨[]⟩, true)

/-- The buffer state after `start_bundle` followed by `process` over a list of
elements. -/
def WriteFnState.runBundle (es : List Elem) : WriteFnState :=
  es.foldl (fun s e => (s.process e).1) WriteFnState.start_bundle

/-! ## Engine selection (`SwitchingDirectRunner.run_pipeline`) -/

/-- `_FnApiRunnerSupportVisitor.visit_transform`: a step rules out the
FnApiRunner when it is a `_TestStream`, a `Read` from a `NativeSource`, a
`_NativeWrite`, or a ParDo over a `CombineValuesDoFn` with an
`ArgumentPlaceholder` among its raw side inputs. -/
def disqualifiesFnApi (t : Transform) : Bool :=
  match t with
  | .TestStream => true
  | .Read .nativeSource => true
  | .NativeWrite => true
  | _ =>
      t.isParDoInstance &&
        (match t.dofn with
         | some .CombineValuesDoFn => true
         | _ => false) &&
        t.rawSideInputs.any (fun x =>
          match x with
          | .ArgumentPlaceholder => true
          | _ => false)

/-- `_FnApiRunnerSupportVisitor.accept(pipeline)`: true iff no visited step
disqualifies the FnApiRunner. -/
def supported_by_fnapi_runner (pipeline : List AppliedPTransform) : Bool :=
  pipeline.all fun a => !disqualifiesFnApi a.transform

/-- The two execution strategies `SwitchingDirectRunner` can delegate to. -/
inductive RunnerChoice where
  | FnApiRunner
  | BundleBased
deriving DecidableEq

/-- `SwitchingDirectRunner.run_pipeline`, up to the delegation: the visitor
scan decides `use_fnapi_runner`, a failed `import grpc` (modelled by
`grpcAvailable = false`) forces it to false, and the corresponding runner is
chosen.  No path raises, and `options` is never consulted. -/
def SwitchingDirectRunner.run_pipeline (pipeline : List AppliedPTransform)
    (options : PipelineOptions) (grpcAvailable : Bool) : RunnerChoice :=
  let use_fnapi_runner := supported_by_fnapi_runner pipeline
  let use_fnapi_runner := use_fnapi_runner && grpcAvailable
  if use_fnapi_runner then .FnApiRunner else .BundleBased

/-! ## `BundleBasedDirectRunner.run_pipeline` up to executor start -/

/-- What is observable from `BundleBasedDirectRunner.run_pipeline` for the
construction-time claims: the rewritten graph or the exception raised during
`pipeline.replace_all(_get_transform_overrides(options))`, and whether
`executor.start` was reached.  Everything after the rewrite (context assembly,
executor start, result handle) involves external collaborators; the decisive
fact is that an exception in `replace_all` propagates before any of it. -/
structure RunOutcome where
  result : Except PyErr (List AppliedPTransform)
  executorStarted : Bool
deriving DecidableEq

/-- `BundleBasedDirectRunner.run_pipeline(pipeline, options)`: the rewrite is
the first thing it does; on success execution is started and a RUNNING handle
returned. -/
def BundleBasedDirectRunner.run_pipeline (pipeline : List AppliedPTransform)
    (options : PipelineOptions) (pubsubAvailable : Bool) : RunOutcome :=
  match replace_all pipeline (get_transform_overrides options pubsubAvailable) with
  | .error e => ⟨.error e, false⟩
  | .ok g => ⟨.ok g, true⟩


/-- Nodes matched by none of the seven override rules (for a `CombinePerKey`
node this depends on the input windowing; for a plain ParDo on whether its
dofn is a `_GroupAlsoByWindowDoFn`).  Every transform a rule produces is a
stable node — that is the content of the idempotence claim. -/
def stableNode (a : AppliedPTransform) : Bool :=
  match a.transform with
  | .TestStream => true
  | .Read _ => true
  | .NativeWrite => true
  | .ParDo d _ => !d.isGroupAlsoByWindowDoFn
  | .StreamingGroupAlsoByWindow _ => true
  | .StreamingGroupByKeyOnly => true
  | .DirectReadFromPubSub _ => true
  | .LiftedCombinePerKey _ => true
  | .KeyedWorkItemsParDo _ => true
  | .other _ => true
  | .CombinePerKey _ => !a.inputWindowing.is_default
  | _ => false

/-! ## Helper lemmas -/

theorem applyOverride_of_not_match (o : PTransformOverride) (a : AppliedPTransform)
    (h : o.matchesFn a = false) : applyOverride o a = .ok a := by
  simp [applyOverride, h]

theorem applyOverrides_of_no_match (os : List PTransformOverride) (a : AppliedPTransform)
    (h : ∀ o ∈ os, o.matchesFn a = false) : applyOverrides os a = .ok a := by
  induction os with
  | nil => rfl
  | cons o os ih =>
      have h1 : o.matchesFn a = false := h o (List.mem_cons_self o os)
      simp [applyOverrides, applyOverride_of_not_match o a h1]
      exact ih fun o' ho' => h o' (List.mem_cons_of_mem o ho')

theorem mem_get_transform_overrides (options : PipelineOptions) (pub : Bool)
    (o : PTransformOverride) (ho : o ∈ get_transform_overrides options pub) :
    o = SplittableParDoOverride ∨ o = ProcessKeyedElementsViaKeyedWorkItemsOverride ∨
    o = CombinePerKeyOverride ∨ o = StreamingGroupByKeyOverride ∨
    o = StreamingGroupAlsoByWindowOverride ∨ o = ReadFromPubSubOverride options ∨
    o = WriteToPubSubOverride options := by
  rcases options with ⟨s, u⟩
  cases s <;> cases pub <;>
    simp [get_transform_overrides, get_pubsub_transform_overrides] at ho <;> tauto

theorem noMatch_splittable (a : AppliedPTransform) (hs : stableNode a = true) :
    SplittableParDoOverride.matchesFn a = false := by
  rcases a with ⟨t, w⟩
  cases t <;> simp_all [stableNode, SplittableParDoOverride]

theorem noMatch_processKeyed (a : AppliedPTransform) (hs : stableNode a = true) :
    ProcessKeyedElementsViaKeyedWorkItemsOverride.matchesFn a = false := by
  rcases a with ⟨t, w⟩
  cases t <;> simp_all [stableNode, ProcessKeyedElementsViaKeyedWorkItemsOverride]

theorem noMatch_combinePerKey (a : AppliedPTransform) (hs : stableNode a = true) :
    CombinePerKeyOverride.matchesFn a = false := by
  rcases a with ⟨t, w⟩
  cases t <;> simp_all [stableNode, CombinePerKeyOverride]

theorem noMatch_streamingGBK (a : AppliedPTransform) (hs : stableNode a = true) :
    StreamingGroupByKeyOverride.matchesFn a = false := by
  rcases a with ⟨t, w⟩
  cases t <;> simp_all [stableNode, StreamingGroupByKeyOverride]

theorem noMatch_streamingGABW (a : AppliedPTransform) (hs : stableNode a = true) :
    StreamingGroupAlsoByWindowOverride.matchesFn a = false := by
  rcases a with ⟨t, w⟩
  cases t <;>
    simp_all [stableNode, StreamingGroupAlsoByWindowOverride, Transform.isParDoInstance,
      Transform.dofn, Transform.classIsStreamingGABW, DoFnK.isGroupAlsoByWindowDoFn]

theorem noMatch_readPubSub (options : PipelineOptions) (a : AppliedPTransform)
    (hs : stableNode a = true) : (ReadFromPubSubOverride options).matchesFn a = false := by
  rcases a with ⟨t, w⟩
  cases t <;> simp_all [stableNode, ReadFromPubSubOverride]

theorem noMatch_writePubSub (options : PipelineOptions) (a : AppliedPTransform)
    (hs : stableNode a = true) : (WriteToPubSubOverride options).matchesFn a = false := by
  rcases a with ⟨t, w⟩
  cases t <;> simp_all [stableNode, WriteToPubSubOverride]

theorem matchesFn_false_of_stable (options : PipelineOptions) (pub : Bool)
    (a : AppliedPTransform) (hs : stableNode a = true)
    (o : PTransformOverride) (ho : o ∈ get_transform_overrides options pub) :
    o.matchesFn a = false := by
  rcases mem_get_transform_overrides options pub o ho with h | h | h | h | h | h | h <;> subst h
  · exact noMatch_splittable a hs
  · exact noMatch_processKeyed a hs
  · exact noMatch_combinePerKey a hs
  · exact noMatch_streamingGBK a hs
  · exact noMatch_streamingGABW a hs
  · exact noMatch_readPubSub options a hs
  · exact noMatch_writePubSub options a hs

theorem applyOverrides_stable (options : PipelineOptions) (pub : Bool)
    (a : AppliedPTransform) (hs : stableNode a = true) :
    applyOverrides (get_transform_overrides options pub) a = .ok a :=
  applyOverrides_of_no_match _ a fun o ho => matchesFn_false_of_stable options pub a hs o ho

theorem rewrite_gbko (s u pub : Bool) (w : Windowing) :
    applyOverrides (get_transform_overrides ⟨s, u⟩ pub) ⟨.GroupByKeyOnly, w⟩ =
      .ok ⟨if s then .StreamingGroupByKeyOnly else .GroupByKeyOnly, w⟩ := by
  cases s <;> cases pub <;>
    simp [get_transform_overrides, get_pubsub_transform_overrides, applyOverrides,
      applyOverride, SplittableParDoOverride, ProcessKeyedElementsViaKeyedWorkItemsOverride,
      CombinePerKeyOverride, StreamingGroupByKeyOverride, StreamingGroupAlsoByWindowOverride,
      ReadFromPubSubOverride, WriteToPubSubOverride, Transform.isParDoInstance,
      Transform.dofn, Transform.classIsStreamingGABW, DoFnK.isGroupAlsoByWindowDoFn]

theorem rewrite_combinePerKey (s u pub : Bool) (i : Nat) (lift : Bool) (w : Windowing)
    (hw : w.is_default = true) :
    applyOverrides (get_transform_overrides ⟨s, u⟩ pub) ⟨.CombinePerKey ⟨i, lift⟩, w⟩ =
      .ok ⟨if lift then .LiftedCombinePerKey ⟨i, lift⟩ else .CombinePerKey ⟨i, lift⟩, w⟩ := by
  cases s <;> cases pub <;> cases lift <;>
    simp [get_transform_overrides, get_pubsub_transform_overrides, applyOverrides,
      applyOverride, SplittableParDoOverride, ProcessKeyedElementsViaKeyedWorkItemsOverride,
      CombinePerKeyOverride, StreamingGroupByKeyOverride, StreamingGroupAlsoByWindowOverride,
      ReadFromPubSubOverride, WriteToPubSubOverride, LiftedCombinePerKey.init,
      Transform.isParDoInstance, Transform.dofn, Transform.classIsStreamingGABW,
      DoFnK.isGroupAlsoByWindowDoFn, hw]

theorem rewrite_gabw (s u pub : Bool) (wd w : Windowing) :
    applyOverrides (get_transform_overrides ⟨s, u⟩ pub) ⟨.GroupAlsoByWindow wd, w⟩ =
      .ok ⟨if s then .StreamingGroupAlsoByWindow wd else .GroupAlsoByWindow wd, w⟩ := by
  cases s <;> cases pub <;>
    simp [get_transform_overrides, get_pubsub_transform_overrides, applyOverrides,
      applyOverride, SplittableParDoOverride, ProcessKeyedElementsViaKeyedWorkItemsOverride,
      CombinePerKeyOverride, StreamingGroupByKeyOverride, StreamingGroupAlsoByWindowOverride,
      ReadFromPubSubOverride, WriteToPubSubOverride, Transform.isParDoInstance,
      Transform.dofn, Transform.classIsStreamingGABW, DoFnK.isGroupAlsoByWindowDoFn]

theorem rewrite_pardo_gabw (s u pub : Bool) (wd w : Windowing) (si : List Arg) :
    applyOverrides (get_transform_overrides ⟨s, u⟩ pub)
        ⟨.ParDo (.GroupAlsoByWindowDoFn wd) si, w⟩ =
      .ok ⟨if s then .StreamingGroupAlsoByWindow wd
           else .ParDo (.GroupAlsoByWindowDoFn wd) si, w⟩ := by
  cases s <;> cases pub <;>
    simp [get_transform_overrides, get_pubsub_transform_overrides, applyOverrides,
      applyOverride, SplittableParDoOverride, ProcessKeyedElementsViaKeyedWorkItemsOverride,
      CombinePerKeyOverride, StreamingGroupByKeyOverride, StreamingGroupAlsoByWindowOverride,
      ReadFromPubSubOverride, WriteToPubSubOverride, Transform.isParDoInstance,
      Transform.dofn, Transform.classIsStreamingGABW, DoFnK.isGroupAlsoByWindowDoFn]

theorem rewrite_readPubSub (s u pub : Bool) (src : PubSubSource) (w : Windowing) :
    applyOverrides (get_transform_overrides ⟨s, u⟩ pub) ⟨.ReadFromPubSub src, w⟩ =
      (if pub then
        (if s then .ok ⟨.DirectReadFromPubSub src, w⟩
         else .error (.exception
           "PubSub I/O is only available in streaming mode (use the --streaming flag)."))
       else .ok ⟨.ReadFromPubSub src, w⟩) := by
  cases s <;> cases pub <;>
    simp [get_transform_overrides, get_pubsub_transform_overrides, applyOverrides,
      applyOverride, SplittableParDoOverride, ProcessKeyedElementsViaKeyedWorkItemsOverride,
      CombinePerKeyOverride, StreamingGroupByKeyOverride, StreamingGroupAlsoByWindowOverride,
      ReadFromPubSubOverride, WriteToPubSubOverride, Transform.isParDoInstance,
      Transform.dofn, Transform.classIsStreamingGABW, DoFnK.isGroupAlsoByWindowDoFn]

theorem rewrite_writePubSub (s u pub : Bool) (sink : PubSubSink) (w : Windowing) :
    applyOverrides (get_transform_overrides ⟨s, u⟩ pub) ⟨.WriteToPubSub sink, w⟩ =
      (if pub then
        (if s then
          (match DirectWriteToPubSubFn.init sink with
           | .ok fn => .ok ⟨.ParDo (.DirectWriteToPubSubDoFn fn) [], w⟩
           | .error e => .error e)
         else .error (.exception
           "PubSub I/O is only available in streaming mode (use the --streaming flag)."))
       else .ok ⟨.WriteToPubSub sink, w⟩) := by
  cases s <;> cases pub <;>
    cases hinit : DirectWriteToPubSubFn.init sink <;>
    simp [get_transform_overrides, get_pubsub_transform_overrides, applyOverrides,
      applyOverride, SplittableParDoOverride, ProcessKeyedElementsViaKeyedWorkItemsOverride,
      CombinePerKeyOverride, StreamingGroupByKeyOverride, StreamingGroupAlsoByWindowOverride,
      ReadFromPubSubOverride, WriteToPubSubOverride, Transform.isParDoInstance,
      Transform.dofn, Transform.classIsStreamingGABW, DoFnK.isGroupAlsoByWindowDoFn, hinit]

theorem rewrite_writeStrings (s u pub : Bool) (sink : PubSubSink) (w : Windowing) :
    applyOverrides (get_transform_overrides ⟨s, u⟩ pub) ⟨.WriteStringsToPubSub sink, w⟩ =
      (if pub then
        (if s then
          (match DirectWriteToPubSubFn.init sink with
           | .ok fn => .ok ⟨.ParDo (.DirectWriteToPubSubDoFn fn) [], w⟩
           | .error e => .error e)
         else .error (.exception
           "PubSub I/O is only available in streaming mode (use the --streaming flag)."))
       else .ok ⟨.WriteStringsToPubSub sink, w⟩) := by
  cases s <;> cases pub <;>
    cases hinit : DirectWriteToPubSubFn.init sink <;>
    simp [get_transform_overrides, get_pubsub_transform_overrides, applyOverrides,
      applyOverride, SplittableParDoOverride, ProcessKeyedElementsViaKeyedWorkItemsOverride,
      CombinePerKeyOverride, StreamingGroupByKeyOverride, StreamingGroupAlsoByWindowOverride,
      ReadFromPubSubOverride, WriteToPubSubOverride, Transform.isParDoInstance,
      Transform.dofn, Transform.classIsStreamingGABW, DoFnK.isGroupAlsoByWindowDoFn, hinit]

theorem rewrite_splittable (s u pub : Bool) (n : Nat) (w : Windowing) :
    applyOverrides (get_transform_overrides ⟨s, u⟩ pub) ⟨.SplittableParDo n, w⟩ =
      .ok ⟨.KeyedWorkItemsParDo n, w⟩ := by
  cases s <;> cases pub <;>
    simp [get_transform_overrides, get_pubsub_transform_overrides, applyOverrides,
      applyOverride, SplittableParDoOverride, ProcessKeyedElementsViaKeyedWorkItemsOverride,
      CombinePerKeyOverride, StreamingGroupByKeyOverride, StreamingGroupAlsoByWindowOverride,
      ReadFromPubSubOverride, WriteToPubSubOverride, Transform.isParDoInstance,
      Transform.dofn, Transform.classIsStreamingGABW, DoFnK.isGroupAlsoByWindowDoFn]

theorem rewrite_processKeyed (s u pub : Bool) (n : Nat) (w : Windowing) :
    applyOverrides (get_transform_overrides ⟨s, u⟩ pub) ⟨.ProcessKeyedElements n, w⟩ =
      .ok ⟨.KeyedWorkItemsParDo n, w⟩ := by
  cases s <;> cases pub <;>
    simp [get_transform_overrides, get_pubsub_transform_overrides, applyOverrides,
      applyOverride, SplittableParDoOverride, ProcessKeyedElementsViaKeyedWorkItemsOverride,
      CombinePerKeyOverride, StreamingGroupByKeyOverride, StreamingGroupAlsoByWindowOverride,
      ReadFromPubSubOverride, WriteToPubSubOverride, Transform.isParDoInstance,
      Transform.dofn, Transform.classIsStreamingGABW, DoFnK.isGroupAlsoByWindowDoFn]

theorem applyOverrides_idem_node (options : PipelineOptions) (pub : Bool)
    (a b : AppliedPTransform)
    (h : applyOverrides (get_transform_overrides options pub) a = .ok b) :
    applyOverrides (get_transform_overrides options pub) b = .ok b := by
  rcases options with ⟨s, u⟩
  rcases a with ⟨t, w⟩
  cases t with
  | TestStream =>
      rw [applyOverrides_stable _ _ _ (by simp [stableNode])] at h
      injection h with hb
      subst hb
      exact applyOverrides_stable _ _ _ (by simp [stableNode])
  | Read src =>
      rw [applyOverrides_stable _ _ _ (by simp [stableNode])] at h
      injection h with hb
      subst hb
      exact applyOverrides_stable _ _ _ (by simp [stableNode])
  | NativeWrite =>
      rw [applyOverrides_stable _ _ _ (by simp [stableNode])] at h
      injection h with hb
      subst hb
      exact applyOverrides_stable _ _ _ (by simp [stableNode])
  | ParDo d si =>
      cases d with
      | GroupAlsoByWindowDoFn wd =>
          rw [rewrite_pardo_gabw s u pub wd w si] at h
          cases s
          · injection h with hb
            subst hb
            simpa using rewrite_pardo_gabw false u pub wd w si
          · injection h with hb
            subst hb
            exact applyOverrides_stable _ _ _ (by simp [stableNode])
      | CombineValuesDoFn =>
          rw [applyOverrides_stable _ _ _
            (by simp [stableNode, DoFnK.isGroupAlsoByWindowDoFn])] at h
          injection h with hb
          subst hb
          exact applyOverrides_stable _ _ _
            (by simp [stableNode, DoFnK.isGroupAlsoByWindowDoFn])
      | DirectWriteToPubSubDoFn fn =>
          rw [applyOverrides_stable _ _ _
            (by simp [stableNode, DoFnK.isGroupAlsoByWindowDoFn])] at h
          injection h with hb
          subst hb
          exact applyOverrides_stable _ _ _
            (by simp [stableNode, DoFnK.isGroupAlsoByWindowDoFn])
      | otherDoFn n =>
          rw [applyOverrides_stable _ _ _
            (by simp [stableNode, DoFnK.isGroupAlsoByWindowDoFn])] at h
          injection h with hb
          subst hb
          exact applyOverrides_stable _ _ _
            (by simp [stableNode, DoFnK.isGroupAlsoByWindowDoFn])
  | GroupAlsoByWindow wd =>
      rw [rewrite_gabw s u pub wd w] at h
      cases s
      · injection h with hb
        subst hb
        simpa using rewrite_gabw false u pub wd w
      · injection h with hb
        subst hb
        exact applyOverrides_stable _ _ _ (by simp [stableNode])
  | StreamingGroupAlsoByWindow wd =>
      rw [applyOverrides_stable _ _ _ (by simp [stableNode])] at h
      injection h with hb
      subst hb
      exact applyOverrides_stable _ _ _ (by simp [stableNode])
  | CombinePerKey fn =>
      rcases fn with ⟨i, lift⟩
      cases hw : w.is_default with
      | false =>
          rw [applyOverrides_stable _ _ _ (by simp [stableNode, hw])] at h
          injection h with hb
          subst hb
          exact applyOverrides_stable _ _ _ (by simp [stableNode, hw])
      | true =>
          rw [rewrite_combinePerKey s u pub i lift w hw] at h
          cases lift
          · injection h with hb
            subst hb
            simpa using rewrite_combinePerKey s u pub i false w hw
          · injection h with hb
            subst hb
            exact applyOverrides_stable _ _ _ (by simp [stableNode])
  | GroupByKeyOnly =>
      rw [rewrite_gbko s u pub w] at h
      cases s
      · injection h with hb
        subst hb
        simpa using rewrite_gbko false u pub w
      · injection h with hb
        subst hb
        exact applyOverrides_stable _ _ _ (by simp [stableNode])
  | StreamingGroupByKeyOnly =>
      rw [applyOverrides_stable _ _ _ (by simp [stableNode])] at h
      injection h with hb
      subst hb
      exact applyOverrides_stable _ _ _ (by simp [stableNode])
  | ReadFromPubSub src =>
      rw [rewrite_readPubSub s u pub src w] at h
      cases pub
      · injection h with hb
        subst hb
        simpa using rewrite_readPubSub s u false src w
      · cases s
        · simp at h
        · injection h with hb
          subst hb
          exact applyOverrides_stable _ _ _ (by simp [stableNode])
  | WriteToPubSub sink =>
      rw [rewrite_writePubSub s u pub sink w] at h
      cases pub
      · injection h with hb
        subst hb
        simpa using rewrite_writePubSub s u false sink w
      · cases s
        · simp at h
        · cases hinit : DirectWriteToPubSubFn.init sink with
          | error e =>
              rw [hinit] at h
              simp at h
          | ok fn =>
              rw [hinit] at h
              injection h with hb
              subst hb
              exact applyOverrides_stable _ _ _
                (by simp [stableNode, DoFnK.isGroupAlsoByWindowDoFn])
  | WriteStringsToPubSub sink =>
      rw [rewrite_writeStrings s u pub sink w] at h
      cases pub
      · injection h with hb
        subst hb
        simpa using rewrite_writeStrings s u false sink w
      · cases s
        · simp at h
        · cases hinit : DirectWriteToPubSubFn.init sink with
          | error e =>
              rw [hinit] at h
              simp at h
          | ok fn =>
              rw [hinit] at h
              injection h with hb
              subst hb
              exact applyOverrides_stable _ _ _
                (by simp [stableNode, DoFnK.isGroupAlsoByWindowDoFn])
  | DirectReadFromPubSub src =>
      rw [applyOverrides_stable _ _ _ (by simp [stableNode])] at h
      injection h with hb
      subst hb
      exact applyOverrides_stable _ _ _ (by simp [stableNode])
  | LiftedCombinePerKey fn =>
      rw [applyOverrides_stable _ _ _ (by simp [stableNode])] at h
      injection h with hb
      subst hb
      exact applyOverrides_stable _ _ _ (by simp [stableNode])
  | SplittableParDo n =>
      rw [rewrite_splittable s u pub n w] at h
      injection h with hb
      subst hb
      exact applyOverrides_stable _ _ _ (by simp [stableNode])
  | ProcessKeyedElements n =>
      rw [rewrite_processKeyed s u pub n w] at h
      injection h with hb
      subst hb
      exact applyOverrides_stable _ _ _ (by simp [stableNode])
  | KeyedWorkItemsParDo n =>
      rw [applyOverrides_stable _ _ _ (by simp [stableNode])] at h
      injection h with hb
      subst hb
      exact applyOverrides_stable _ _ _ (by simp [stableNode])
  | other n =>
      rw [applyOverrides_stable _ _ _ (by simp [stableNode])] at h
      injection h with hb
      subst hb
      exact applyOverrides_stable _ _ _ (by simp [stableNode])

theorem replace_all_error_of_mem (graph : List AppliedPTransform)
    (os : List PTransformOverride) (a : AppliedPTransform) (ha : a ∈ graph)
    (e : PyErr) (he : applyOverrides os a = .error e) :
    ∃ e2, replace_all graph os = .error e2 := by
  induction graph with
  | nil => cases ha
  | cons b rest ih =>
      rcases List.mem_cons.mp ha with hab | hmem
      · subst hab
        refine ⟨e, ?_⟩
        simp only [replace_all, he]
      · cases hb : applyOverrides os b with
        | error e3 =>
            refine ⟨e3, ?_⟩
            simp only [replace_all, hb]
        | ok bb =>
            obtain ⟨e2, he2⟩ := ih hmem
            refine ⟨e2, ?_⟩
            simp only [replace_all, hb, he2]

theorem writeBuffer_lt (es : List Elem) (s : WriteFnState)
    (hs : s.buffer.length < BUFFER_SIZE_ELEMENTS) :
    (es.foldl (fun s e => (s.process e).1) s).buffer.length < BUFFER_SIZE_ELEMENTS := by
  induction es generalizing s with
  | nil => simpa using hs
  | cons e es ih =>
      simp only [List.foldl_cons]
      apply ih
      unfold WriteFnState.process
      split
      · simp [BUFFER_SIZE_ELEMENTS]
      · rename_i hle
        simp only [List.length_append, List.length_cons, List.length_nil] at hle ⊢
        omega

theorem runBundle_buffer_lt (es : List Elem) :
    (WriteFnState.runBundle es).buffer.length < BUFFER_SIZE_ELEMENTS :=
  writeBuffer_lt es WriteFnState.start_bundle
    (by simp [WriteFnState.start_bundle, BUFFER_SIZE_ELEMENTS])

/-! ## Claim theorems -/

/-- Claim C1, counterexample: with the handle already in the terminal state
DONE, `wait_until_finish(60)` returns `DONE` and raises nothing — the
truthy-duration check sits inside the `not is_terminal` branch, so the
unsupported-timeout failure is not independent of the lifecycle state. -/
theorem C1_counterexample :
    PipelineState.is_terminal .DONE = true ∧ durationTruthy (some 60) = true ∧
    (DirectPipelineResult.mk .DONE).wait_until_finish (some 60) (.ok ()) =
      ⟨.ok .DONE, ⟨.DONE⟩, false⟩ := by
  decide

/-- Claim C1 as amended: `wait_until_finish(duration)` raises the
unsupported-timeout `NotImplementedError` exactly when the handle state is
non-terminal and the duration is truthy (non-`None` and nonzero); when the
state is already terminal it returns the current state without raising,
whatever the duration. -/
theorem C1_amended (r : DirectPipelineResult) (d : Option Int)
    (ex : Except PyErr Unit) :
    (r._state.is_terminal = false → durationTruthy d = true →
      r.wait_until_finish d ex =
        ⟨.error (.notImplementedError
          "DirectRunner does not support duration argument."), r, false⟩)
    ∧ (r._state.is_terminal = true →
      r.wait_until_finish d ex = ⟨.ok r._state, r, false⟩) := by
  constructor
  · intro h1 h2
    simp [DirectPipelineResult.wait_until_finish, h1, h2]
  · intro h1
    simp [DirectPipelineResult.wait_until_finish, h1]

/-- Witness for C1_amended at a RUNNING handle with duration 60. -/
theorem C1_witness :
    (DirectPipelineResult.mk .RUNNING).wait_until_finish (some 60) (.ok ()) =
      ⟨.error (.notImplementedError
        "DirectRunner does not support duration argument."), ⟨.RUNNING⟩, false⟩ :=
  (C1_amended ⟨.RUNNING⟩ (some 60) (.ok ())).1 (by decide) (by decide)

/-- Claim C2, counterexample: `cancel()` called on a handle in the terminal
state DONE assigns CANCELLING and then CANCELLED — an operation does move the
handle out of a terminal state, because `cancel` never checks the current
state. -/
theorem C2_counterexample :
    PipelineState.is_terminal .DONE = true ∧
    (DirectPipelineResult.mk .DONE).opEdges .cancel =
      [(.DONE, .CANCELLING), (.CANCELLING, .CANCELLED)] ∧
    ((DirectPipelineResult.mk .DONE).execOp .cancel)._state = .CANCELLED := by
  decide

/-- Claim C2 as amended: RUNNING is the only initial state; from RUNNING the
only directly reachable states are DONE and FAILED (via `wait_until_finish`)
and CANCELLING (via `cancel`); no operation ever completes in CANCELLING (so
it is transient), and from any state a caller can observe, an edge out of
CANCELLING goes only to CANCELLED; `wait_until_finish` never moves the handle
out of a terminal state; but `cancel` unconditionally drives every state —
terminal ones included — through CANCELLING to CANCELLED. -/
theorem C2_amended :
    DirectPipelineResult.init._state = .RUNNING
    ∧ (∀ (op : ResultOp) (e : PipelineState × PipelineState),
        e ∈ DirectPipelineResult.init.opEdges op → e.1 = .RUNNING →
        e.2 = .DONE ∨ e.2 = .FAILED ∨ e.2 = .CANCELLING)
    ∧ (∀ (r : DirectPipelineResult) (op : ResultOp),
        r._state ≠ .CANCELLING → (r.execOp op)._state ≠ .CANCELLING)
    ∧ (∀ (r : DirectPipelineResult) (op : ResultOp)
        (e : PipelineState × PipelineState),
        r._state ≠ .CANCELLING → e ∈ r.opEdges op → e.1 = .CANCELLING →
        e.2 = .CANCELLED)
    ∧ (∀ (r : DirectPipelineResult) (d : Option Int) (ex : Except PyErr Unit),
        r._state.is_terminal = true → (r.wait_until_finish d ex).final = r)
    ∧ (∀ r : DirectPipelineResult, (r.cancel)._state = .CANCELLED) := by
  refine ⟨rfl, ?_, ?_, ?_, ?_, fun r => rfl⟩
  · intro op e he h1
    cases op with
    | wait d ex =>
        cases hd : durationTruthy d <;> cases ex <;>
          simp_all [DirectPipelineResult.opEdges, DirectPipelineResult.opAssigns,
            DirectPipelineResult.waitAssigns, DirectPipelineResult.init,
            PipelineState.is_terminal, stateEdges]
    | cancel =>
        simp [DirectPipelineResult.opEdges, DirectPipelineResult.opAssigns,
          DirectPipelineResult.cancelAssigns, DirectPipelineResult.init,
          stateEdges] at he
        rcases he with he | he <;> subst he <;> simp_all
  · intro r op h1
    rcases r with ⟨st⟩
    cases op with
    | wait d ex =>
        cases st <;> cases hd : durationTruthy d <;> cases ex <;>
          simp_all [DirectPipelineResult.execOp,
            DirectPipelineResult.wait_until_finish, PipelineState.is_terminal]
    | cancel =>
        simp [DirectPipelineResult.execOp, DirectPipelineResult.cancel]
  · intro r op e h1 he h2
    rcases r with ⟨st⟩
    cases op with
    | wait d ex =>
        cases st <;> cases hd : durationTruthy d <;> cases ex <;>
          simp_all [DirectPipelineResult.opEdges, DirectPipelineResult.opAssigns,
            DirectPipelineResult.waitAssigns, PipelineState.is_terminal, stateEdges]
    | cancel =>
        simp [DirectPipelineResult.opEdges, DirectPipelineResult.opAssigns,
          DirectPipelineResult.cancelAssigns, stateEdges] at he
        rcases he with he | he <;> subst he <;> simp_all
  · intro r d ex h1
    simp [DirectPipelineResult.wait_until_finish, h1]

/-- Witness for C2_amended: the CANCELLING → CANCELLED edge of a cancel from
RUNNING, the no-op wait on a DONE handle, and cancel never ending in
CANCELLING. -/
theorem C2_witness :
    (PipelineState.CANCELLING, PipelineState.CANCELLED).2 = PipelineState.CANCELLED
    ∧ ((DirectPipelineResult.mk .DONE).wait_until_finish none (.ok ())).final =
      ⟨.DONE⟩
    ∧ ((DirectPipelineResult.mk .RUNNING).execOp .cancel)._state ≠ .CANCELLING :=
  ⟨C2_amended.2.2.2.1 ⟨.RUNNING⟩ .cancel (.CANCELLING, .CANCELLED) (by decide)
      (by decide) rfl,
    C2_amended.2.2.2.2.1 ⟨.DONE⟩ none (.ok ()) (by decide),
    C2_amended.2.2.1 ⟨.RUNNING⟩ .cancel (by decide)⟩

theorem readMatches_shape (options : PipelineOptions) (a : AppliedPTransform)
    (hm : (ReadFromPubSubOverride options).matchesFn a = true) :
    ∃ src, a.transform = .ReadFromPubSub src := by
  rcases a with ⟨t, w⟩
  cases t <;> simp_all [ReadFromPubSubOverride]

theorem writeMatches_shape (options : PipelineOptions) (a : AppliedPTransform)
    (hm : (WriteToPubSubOverride options).matchesFn a = true) :
    ∃ sink, a.transform = .WriteToPubSub sink ∨
      a.transform = .WriteStringsToPubSub sink := by
  rcases a with ⟨t, w⟩
  cases t <;> simp_all [WriteToPubSubOverride]

/-- Claim C3 (confirmed): with `streaming = false` and the PubSub package
importable, any step matched by the PubSub read or write override rule makes
`BundleBasedDirectRunner.run_pipeline` raise during `replace_all` — a
construction-time error, before the executor is ever started. -/
theorem C3_pubsub_requires_streaming (options : PipelineOptions)
    (graph : List AppliedPTransform) (a : AppliedPTransform)
    (ha : a ∈ graph) (hs : options.streaming = false)
    (hm : (ReadFromPubSubOverride options).matchesFn a = true ∨
      (WriteToPubSubOverride options).matchesFn a = true) :
    (∃ e, (BundleBasedDirectRunner.run_pipeline graph options true).result =
      .error e)
    ∧ (BundleBasedDirectRunner.run_pipeline graph options true).executorStarted =
      false := by
  rcases options with ⟨s, u⟩
  simp only at hs
  subst hs
  have herr : applyOverrides (get_transform_overrides ⟨false, u⟩ true) a =
      .error (.exception
        "PubSub I/O is only available in streaming mode (use the --streaming flag).") := by
    rcases a with ⟨t, w⟩
    rcases hm with hm | hm
    · obtain ⟨src, hsrc⟩ := readMatches_shape ⟨false, u⟩ ⟨t, w⟩ hm
      dsimp only at hsrc
      subst hsrc
      simpa using rewrite_readPubSub false u true src w
    · obtain ⟨sink, hsink⟩ := writeMatches_shape ⟨false, u⟩ ⟨t, w⟩ hm
      dsimp only at hsink
      rcases hsink with hsink | hsink <;> subst hsink
      · simpa using rewrite_writePubSub false u true sink w
      · simpa using rewrite_writeStrings false u true sink w
  obtain ⟨e2, he2⟩ :=
    replace_all_error_of_mem graph (get_transform_overrides ⟨false, u⟩ true) a ha _ herr
  constructor
  · exact ⟨e2, by simp [BundleBasedDirectRunner.run_pipeline, he2]⟩
  · simp [BundleBasedDirectRunner.run_pipeline, he2]

/-- Witness for C3 on a one-node graph holding a PubSub read, with
`streaming = false`. -/
theorem C3_witness :
    (∃ e, (BundleBasedDirectRunner.run_pipeline
      [⟨.ReadFromPubSub ⟨"topic"⟩, ⟨true⟩⟩] ⟨false, false⟩ true).result = .error e)
    ∧ (BundleBasedDirectRunner.run_pipeline
      [⟨.ReadFromPubSub ⟨"topic"⟩, ⟨true⟩⟩] ⟨false, false⟩ true).executorStarted =
      false :=
  C3_pubsub_requires_streaming ⟨false, false⟩
    [⟨.ReadFromPubSub ⟨"topic"⟩, ⟨true⟩⟩] ⟨.ReadFromPubSub ⟨"topic"⟩, ⟨true⟩⟩
    (by simp) rfl (Or.inl rfl)

/-- Claim C4 (confirmed): rewriting is idempotent — if
`replace_all` with the override list of `_get_transform_overrides` succeeds on
a graph, running it again on the rewritten graph reproduces that graph
unchanged: every node a rule produces is matched by no rule (exact-class
matching for the streaming group-by-key rule, class exclusion for the
group-also-by-window rule, and analogously for the others), and the only
re-matched node (an unliftable `CombinePerKey`) is replaced by itself. -/
theorem C4_rewrite_idempotent (options : PipelineOptions) (pub : Bool)
    (graph g : List AppliedPTransform)
    (h : replace_all graph (get_transform_overrides options pub) = .ok g) :
    replace_all g (get_transform_overrides options pub) = .ok g := by
  induction graph generalizing g with
  | nil =>
      simp only [replace_all] at h
      injection h with hg
      subst hg
      rfl
  | cons a rest ih =>
      cases ha : applyOverrides (get_transform_overrides options pub) a with
      | error e =>
          simp only [replace_all, ha] at h
          exact Except.noConfusion h
      | ok b =>
          cases hr : replace_all rest (get_transform_overrides options pub) with
          | error e =>
              simp only [replace_all, ha, hr] at h
              exact Except.noConfusion h
          | ok bs =>
              simp only [replace_all, ha, hr] at h
              injection h with hg
              subst hg
              have hb := applyOverrides_idem_node options pub a b ha
              have hbs := ih bs hr
              simp only [replace_all, hb, hbs]

/-- Witness for C4: a streaming graph with a group-by-key node and a
splittable step; the first rewrite specializes both, the second is the
identity on the result. -/
theorem C4_witness :
    replace_all [⟨.StreamingGroupByKeyOnly, ⟨true⟩⟩, ⟨.KeyedWorkItemsParDo 7, ⟨true⟩⟩]
      (get_transform_overrides ⟨true, false⟩ true) =
      .ok [⟨.StreamingGroupByKeyOnly, ⟨true⟩⟩, ⟨.KeyedWorkItemsParDo 7, ⟨true⟩⟩] :=
  C4_rewrite_idempotent ⟨true, false⟩ true
    [⟨.GroupByKeyOnly, ⟨true⟩⟩, ⟨.SplittableParDo 7, ⟨true⟩⟩] _ (by decide)

/-- Claim C5 (confirmed): a `CombinePerKey` node whose first-input windowing
is not the default (single global window) is not matched by
`CombinePerKeyOverride`, so it is never replaced by the lifted variant. -/
theorem C5_nondefault_windowing_not_lifted (a : AppliedPTransform) (fn : CombineFn)
    (ht : a.transform = .CombinePerKey fn)
    (hw : a.inputWindowing.is_default = false) :
    CombinePerKeyOverride.matchesFn a = false := by
  rcases a with ⟨t, w⟩
  dsimp only at ht hw
  subst ht
  simp [CombinePerKeyOverride, hw]

/-- Witness for C5 at a concrete non-default-windowed combine node. -/
theorem C5_witness :
    CombinePerKeyOverride.matchesFn ⟨.CombinePerKey ⟨0, true⟩, ⟨false⟩⟩ = false :=
  C5_nondefault_windowing_not_lifted ⟨.CombinePerKey ⟨0, true⟩, ⟨false⟩⟩ ⟨0, true⟩
    rfl rfl

/-- Claim C6 (confirmed): when the combine function shape is unsupported for
lifting (`LiftedCombinePerKey` construction raises `NotImplementedError`),
`CombinePerKeyOverride.get_replacement_transform` catches the error and
returns the original transform unchanged — no error reaches the caller. -/
theorem C6_unsupported_lift_returns_original (fn : CombineFn)
    (h : fn.liftable = false) :
    LiftedCombinePerKey.init fn =
      .error (.notImplementedError "combine function shape unsupported for lifting")
    ∧ CombinePerKeyOverride.get_replacement_transform (.CombinePerKey fn) =
      .ok (.CombinePerKey fn) := by
  constructor
  · simp [LiftedCombinePerKey.init, h]
  · simp [CombinePerKeyOverride, LiftedCombinePerKey.init, h]

/-- Witness for C6 at a concrete unliftable combine function. -/
theorem C6_witness :
    LiftedCombinePerKey.init ⟨3, false⟩ =
      .error (.notImplementedError "combine function shape unsupported for lifting")
    ∧ CombinePerKeyOverride.get_replacement_transform (.CombinePerKey ⟨3, false⟩) =
      .ok (.CombinePerKey ⟨3, false⟩) :=
  C6_unsupported_lift_returns_original ⟨3, false⟩ rfl

/-- Claim C7 (confirmed): within one bundle, `process` flushes exactly when
the buffered count reaches `BUFFER_SIZE_ELEMENTS` (100) — never at any other
count, since the buffer never holds 100 or more between calls — a flush
empties the buffer, a non-flushing `process` just appends, and
`finish_bundle` always flushes and empties the buffer. -/
theorem C7_flush_exactly_at_capacity (es : List Elem) (e : Elem) :
    ((((WriteFnState.runBundle es).process e).2 = true) ↔
      (WriteFnState.runBundle es).buffer.length + 1 = BUFFER_SIZE_ELEMENTS)
    ∧ ((((WriteFnState.runBundle es).process e).2 = true) →
        ((WriteFnState.runBundle es).process e).1.buffer = [])
    ∧ ((((WriteFnState.runBundle es).process e).2 = false) →
        ((WriteFnState.runBundle es).process e).1.buffer =
          (WriteFnState.runBundle es).buffer ++ [e])
    ∧ (WriteFnState.runBundle es).finish_bundle.2 = true
    ∧ ((WriteFnState.runBundle es).finish_bundle).1.buffer = [] := by
  have hlt := runBundle_buffer_lt es
  refine ⟨?_, ?_, ?_, rfl, rfl⟩
  · unfold WriteFnState.process
    by_cases hc : BUFFER_SIZE_ELEMENTS ≤ ((WriteFnState.runBundle es).buffer ++ [e]).length
    · simp only [if_pos hc]
      simp only [List.length_append, List.length_cons, List.length_nil] at hc
      simp only [BUFFER_SIZE_ELEMENTS] at hc hlt ⊢
      simp
      omega
    · simp only [if_neg hc]
      simp only [List.length_append, List.length_cons, List.length_nil] at hc
      simp only [BUFFER_SIZE_ELEMENTS] at hc hlt ⊢
      simp
      omega
  · unfold WriteFnState.process
    split <;> simp
  · unfold WriteFnState.process
    split <;> simp

/-- Claim C8 (confirmed): when the `import grpc` fails,
`SwitchingDirectRunner.run_pipeline` chooses the `BundleBasedDirectRunner`
for every pipeline — the import error is caught, nothing is raised, and
whether the steps were otherwise FnApiRunner-eligible is irrelevant. -/
theorem C8_no_grpc_forces_bundle_based (pipeline : List AppliedPTransform)
    (options : PipelineOptions) :
    SwitchingDirectRunner.run_pipeline pipeline options false = .BundleBased := by
  simp [SwitchingDirectRunner.run_pipeline]

/-- Claim C9, counterexample: `duration = 0` is bounded and non-null, yet
the Python `if duration:` is false at 0, so `wait_until_finish(0)` on a RUNNING
handle raises no unsupported-timeout error, invokes `await_completion`, and
moves the state to DONE — the claimed atomic failure does not happen. -/
theorem C9_counterexample :
    (some 0 : Option Int) ≠ none ∧
    PipelineState.is_terminal .RUNNING = false ∧
    (DirectPipelineResult.mk .RUNNING).wait_until_finish (some 0) (.ok ()) =
      ⟨.ok .DONE, ⟨.DONE⟩, true⟩ := by
  decide

/-- Claim C9 as amended: if `wait_until_finish` is called with a truthy
(non-`None`, nonzero) duration in a non-terminal state, the raised
unsupported-timeout error is atomic — the state is left unchanged and
`await_completion` is never invoked. -/
theorem C9_amended (r : DirectPipelineResult) (d : Option Int)
    (ex : Except PyErr Unit) (h1 : r._state.is_terminal = false)
    (h2 : durationTruthy d = true) :
    (r.wait_until_finish d ex).result =
      .error (.notImplementedError "DirectRunner does not support duration argument.")
    ∧ (r.wait_until_finish d ex).final = r
    ∧ (r.wait_until_finish d ex).awaitCompletionInvoked = false := by
  simp [DirectPipelineResult.wait_until_finish, h1, h2]

/-- Witness for C9_amended at a RUNNING handle with duration 5 and a failing
executor (which is never consulted). -/
theorem C9_witness :
    ((DirectPipelineResult.mk .RUNNING).wait_until_finish (some 5)
      (.error .attributeError)).result =
      .error (.notImplementedError "DirectRunner does not support duration argument.")
    ∧ ((DirectPipelineResult.mk .RUNNING).wait_until_finish (some 5)
      (.error .attributeError)).final = ⟨.RUNNING⟩
    ∧ ((DirectPipelineResult.mk .RUNNING).wait_until_finish (some 5)
      (.error .attributeError)).awaitCompletionInvoked = false :=
  C9_amended ⟨.RUNNING⟩ (some 5) (.error .attributeError) (by decide) (by decide)

/-- Claim C10 (confirmed): the optimized-versus-bundle-based decision of
`SwitchingDirectRunner.run_pipeline` never consults the options at all — in
particular it is identical for `streaming = true` and `streaming = false` —
since it depends only on the step-type scan and grpc availability. -/
theorem C10_choice_ignores_options (pipeline : List AppliedPTransform)
    (o1 o2 : PipelineOptions) (grpcAvailable : Bool) :
    SwitchingDirectRunner.run_pipeline pipeline o1 grpcAvailable =
      SwitchingDirectRunner.run_pipeline pipeline o2 grpcAvailable := rfl
